import Mathlib

/-!
Verification of the Enoki mental-health chatbot core.

This file is a shallow embedding, in Lean 4, of the parts of the repository
that the verified properties talk about:

- core/gemini_client.py : assess_response_type, generate_reply, add_breaks,
  update_memory and the crisis resource constants;
- core/views.py : the api_chat consent-gated persistence step, the summary
  regeneration cadence, and the api_chat_history limit clamp;
- core/security.py : encrypt_value / decrypt_value;
- ai-service/app/main.py : the sarcasm aggregation.

Python strings are modelled as Lean String (with character-list operations
where the source manipulates text), Python floats as exact rationals, and
the external model calls (Gemini generation, RoBERTa irony and T5 sarcasm
classifiers, Fernet encryption) as oracle parameters: an Option value is
none when the call raises and some r when it returns r.  Python dict-backed
records become structures, missing or falsy optional fields become Option
values, and the unspecified iteration order of a Python set becomes an
explicit enumeration-function parameter constrained to be a permutation.
-/

/-! ## Generic string helpers (Python str semantics on ASCII data) -/

/-- Python str.lower for one ASCII character. -/
def lowerChar (c : Char) : Char :=
  if 'A' ≤ c ∧ c ≤ 'Z' then Char.ofNat (c.toNat + 32) else c

/-- Python str.upper for one ASCII character. -/
def upperChar (c : Char) : Char :=
  if 'a' ≤ c ∧ c ≤ 'z' then Char.ofNat (c.toNat - 32) else c

/-- Python str.lower over a whole string. -/
def lowerString (s : String) : String := String.mk (s.data.map lowerChar)

/-- Python str.upper over a whole string. -/
def upperString (s : String) : String := String.mk (s.data.map upperChar)

/-- Python / regex whitespace characters (ASCII). -/
def isWs (c : Char) : Bool :=
  c = ' ' || c = '\t' || c = '\n' || c = '\r' || c = '\x0b' || c = '\x0c'

/-- Python str.strip: drop whitespace from both ends. -/
def stripData (s : List Char) : List Char :=
  ((s.dropWhile isWs).reverse.dropWhile isWs).reverse

/-- Python str.strip on a String. -/
def stripString (s : String) : String := String.mk (stripData s.data)

/-- Python substring containment, needle in hay. -/
def containsSub (needle : List Char) : List Char → Bool
  | [] => needle.isEmpty
  | c :: rest => needle.isPrefixOf (c :: rest) || containsSub needle rest

/-- Containment lifted to String values. -/
def strContains (hay needle : String) : Bool := containsSub needle.data hay.data

/-! ## core/security.py -/

/-- Oracle for the external Fernet primitive: enc is encryption, dec is
decryption, returning none when decryption raises (InvalidToken or other). -/
structure FernetOracle where
  enc : String → String
  dec : String → Option String

/-- core/security.py encrypt_value: pass through when no key is configured
or the plaintext is falsy (empty), otherwise Fernet-encrypt. -/
def encrypt_value (f : Option FernetOracle) (plaintext : String) : String :=
  match f with
  | none => plaintext
  | some o => if plaintext = "" then plaintext else o.enc plaintext

/-- core/security.py decrypt_value: pass through when no key is configured
or the token is falsy; on decryption failure return the token unchanged. -/
def decrypt_value (f : Option FernetOracle) (token : String) : String :=
  match f with
  | none => token
  | some o =>
    if token = "" then token
    else match o.dec token with
      | some p => p
      | none => token

/-- C9: for every string, decrypting the result of encrypting it returns the
string itself, both when a Fernet key is configured (given that the external
Fernet primitive round-trips and produces nonempty tokens) and when no key is
configured (identity pass-through), including the empty string. -/
theorem c9_encrypt_decrypt_roundtrip (f : Option FernetOracle) (s : String)
    (hdec : ∀ o, f = some o → ∀ x, x ≠ "" → o.dec (o.enc x) = some x)
    (henc : ∀ o, f = some o → ∀ x, x ≠ "" → o.enc x ≠ "") :
    decrypt_value f (encrypt_value f s) = s := by
  cases f with
  | none => rfl
  | some o =>
    by_cases hs : s = ""
    · subst hs
      rfl
    · simp only [encrypt_value, decrypt_value, if_neg hs, if_neg (henc o rfl s hs),
        hdec o rfl s hs]

/-- Toy Fernet oracle used to witness the round-trip theorem: prepend a
marker character on encryption, strip it on decryption. -/
def toyFernet : FernetOracle where
  enc := fun x => String.mk ('g' :: x.data)
  dec := fun t => some (String.mk t.data.tail)

/-- Witness for C9 at a concrete configured key and concrete input. -/
theorem c9_encrypt_decrypt_roundtrip_witness :
    decrypt_value (some toyFernet) (encrypt_value (some toyFernet) "hello") = "hello" :=
  c9_encrypt_decrypt_roundtrip (some toyFernet) "hello"
    (by
      intro o ho x _
      cases ho
      rfl)
    (by
      intro o ho x _
      cases ho
      intro h
      exact List.noConfusion (congrArg String.data h))

/-! ## core/views.py api_chat_history : limit clamping -/

/-- A stored conversation turn: models both the ephemeral session dicts
(role, text) and the durable Message rows (sender, text). -/
structure Turn where
  role : String
  text : String
deriving DecidableEq

/-- core/views.py api_chat_history: limit = max(1, min(limit, 200)). -/
def clamp_limit (limit : Int) : Int := max 1 (min limit 200)

/-- core/views.py api_chat_history message selection: the query orders by
descending creation time, slices [:limit], and the response reverses back to
chronological order — i.e. the last limit messages, in order. -/
def api_chat_history_select (limit : Int) (msgs : List Turn) : List Turn :=
  ((msgs.reverse).take (clamp_limit limit).toNat).reverse

/-- C10: the effective history-fetch limit is clamped to [1, 200], so the
endpoint never returns more than 200 messages and always considers at least
one, for every requested limit value. -/
theorem c10_history_limit_clamped (limit : Int) (msgs : List Turn) :
    1 ≤ clamp_limit limit ∧ clamp_limit limit ≤ 200 ∧
      (api_chat_history_select limit msgs).length ≤ 200 := by
  refine ⟨le_max_left 1 _, max_le (by norm_num) (min_le_right limit 200), ?_⟩
  have hclamp : (clamp_limit limit).toNat ≤ 200 :=
    Int.toNat_le.mpr (max_le (by norm_num) (min_le_right limit 200))
  calc (api_chat_history_select limit msgs).length
      = ((msgs.reverse).take (clamp_limit limit).toNat).length := by
        simp [api_chat_history_select]
    _ ≤ (clamp_limit limit).toNat := List.length_take_le _ _
    _ ≤ 200 := hclamp

/-! ## core/gemini_client.py assess_response_type -/

/-- One RoBERTa emotion entry, a label with a confidence score. -/
structure Emotion where
  label : String
  score : ℚ
deriving DecidableEq

/-- core/gemini_client.py explicit_crisis_markers, the configured explicit
self-harm / suicide markers, category by category in source order
(including the duplicated "kill myself" entry of the source). -/
def explicit_crisis_markers : List (String × List String) :=
  [("suicide",
    ["kill myself", "kill myself", "killing myself", "want to die",
     "should die", "end my life", "end it all", "end it", "take my life",
     "suicide", "suicidal", "commit suicide"]),
   ("self_harm",
    ["cut myself", "cutting myself", "cutting", "self-harm", "self harm",
     "hurt myself", "hurting myself", "harm myself"]),
   ("methods",
    ["overdose", "rope", "pills", "jump", "hanging", "wrist"]),
   ("hopelessness_with_intent",
    ["no point in living", "better off dead", "everyone would be better off if i",
     "shouldn't be alive", "don't deserve to live"])]

/-- The explicit-marker scan of assess_response_type step 1: some configured
marker occurs as a substring of the lowercased user text. -/
def containsCrisisMarker (user_lower : String) : Bool :=
  explicit_crisis_markers.any fun cm => cm.2.any fun m => strContains user_lower m

/-- Loss keywords of the step-2 grief shortcut in assess_response_type. -/
def assess_grief_keywords : List String :=
  ["died", "passed", "funeral", "death", "lost", "lost my", "miss"]

/-- core/gemini_client.py assess_response_type.  The Gemini classification
call is an oracle: none when generate_content (or reading response.text)
raises, some resp when it returns text resp.  Step 1 scans for explicit
crisis markers, step 2 is the grief shortcut over the top emotion, step 3
parses the model answer with emotion-based fallbacks.  The prompt built in
the source only feeds the oracle, so it is not reproduced. -/
def assess_response_type (user_text : String) (emotions : List Emotion)
    (gemini : Option String) : String :=
  let user_lower := lowerString user_text
  if containsCrisisMarker user_lower then "immediate_danger"
  else
    let griefHit :=
      match emotions with
      | [] => false
      | top :: _ =>
        lowerString top.label = "sadness" && decide ((7 : ℚ)/10 < top.score) &&
          assess_grief_keywords.any fun kw => strContains user_lower kw
    if griefHit then "grief"
    else
      match gemini with
      | some resp =>
        let assessment := upperString (stripString resp)
        if strContains assessment "PANIC" then "panic"
        else if strContains assessment "GRIEF" then "grief"
        else if strContains assessment "HIGH_DISTRESS" then "high_distress"
        else if strContains assessment "NORMAL" then "normal"
        else
          match emotions with
          | [] => "normal"
          | top :: _ =>
            if (7 : ℚ)/10 < top.score then
              if lowerString top.label = "fear" then "panic"
              else if lowerString top.label = "sadness" then "high_distress"
              else "normal"
            else "normal"
      | none =>
        match emotions with
        | [] => "normal"
        | top :: _ =>
          if (6 : ℚ)/10 < top.score then
            if lowerString top.label = "fear" then "panic"
            else if lowerString top.label = "sadness" then "high_distress"
            else if lowerString top.label = "anger" then "high_distress"
            else "normal"
          else "normal"

/-- C1: any input whose lowercased text contains a configured explicit
self-harm/suicide marker is classified immediate_danger, for every
emotion-score list and for every outcome of the external model call
(success with any text, or failure): the explicit-marker layer is first and
final. -/
theorem c1_explicit_marker_is_final (user_text : String) (emotions : List Emotion)
    (gemini : Option String)
    (h : containsCrisisMarker (lowerString user_text) = true) :
    assess_response_type user_text emotions gemini = "immediate_danger" := by
  unfold assess_response_type
  simp only [h, if_true]

/-- Witness for C1: a concrete message containing "kill myself" (in mixed
case), with a joyful emotion reading and a model call that answers NORMAL,
is still classified immediate_danger. -/
theorem c1_explicit_marker_is_final_witness :
    containsCrisisMarker (lowerString "I feel fine but I want to KILL myself") = true ∧
      assess_response_type "I feel fine but I want to KILL myself"
        [Emotion.mk "joy" (99/100)] (some "NORMAL") = "immediate_danger" :=
  ⟨by decide,
   c1_explicit_marker_is_final "I feel fine but I want to KILL myself"
     [Emotion.mk "joy" (99/100)] (some "NORMAL") (by decide)⟩

/-! ## core/gemini_client.py add_breaks and the crisis reply -/

/-- Sentence-ending punctuation of the add_breaks split pattern. -/
def isSentEnd (c : Char) : Bool := c = '.' || c = '!' || c = '?'

/-- Left-to-right scan implementing the regex split (?<=[.!?])\s+ : cur is
the current sentence reversed, inGap is true while consuming a whitespace
run that follows sentence-ending punctuation; a whitespace character after
such punctuation opens a gap, the gap greedily swallows further whitespace
and closes at the next non-whitespace character. -/
def splitSentencesGo (inGap : Bool) (cur : List Char) : List Char → List (List Char)
  | [] => [cur.reverse]
  | c :: rest =>
    if inGap then
      if isWs c then splitSentencesGo true cur rest
      else splitSentencesGo false [c] rest
    else
      if isWs c && (match cur with | p :: _ => isSentEnd p | [] => false) then
        cur.reverse :: splitSentencesGo true [] rest
      else splitSentencesGo false (c :: cur) rest

/-- re.split of the pattern (?<=[.!?])\s+ over a character list, matching
Python semantics including the trailing empty piece after a final gap. -/
def splitSentences (s : List Char) : List (List Char) :=
  splitSentencesGo false [] s

/-- Grouping into chunks of size k, counting down the remaining capacity of
the current chunk (cur is reversed); models the [i:i+max_sentences] slices. -/
def chunkListAux (k : Nat) : Nat → List α → List α → List (List α)
  | _, cur, [] => if cur.isEmpty then [] else [cur.reverse]
  | 0, cur, x :: xs => cur.reverse :: chunkListAux k (k - 1) [x] xs
  | n + 1, cur, x :: xs => chunkListAux k n (x :: cur) xs

/-- core/gemini_client.py add_breaks on character data: split the stripped
text into sentences, group them four to a paragraph joined by single
spaces, and join paragraphs with blank lines. -/
def add_breaks_data (text : List Char) (max_sentences : Nat := 4) : List Char :=
  let sentences := splitSentences (stripData text)
  let paragraphs := (chunkListAux max_sentences max_sentences [] sentences).map
    (List.intercalate [' '])
  List.intercalate ['\n', '\n'] paragraphs

/-- core/gemini_client.py add_breaks on String values. -/
def add_breaks (s : String) : String := String.mk (add_breaks_data s.data)

/-- core/gemini_client.py PHILIPPINE_CRISIS_RESOURCES["national_hotlines"]. -/
def philippine_national_hotlines : List String :=
  ["**National Center for Mental Health Crisis Hotline**: 1553 (landline nationwide, toll-free) or 0917-899-8727",
   "**HOPELINE Philippines**: 2919 (Globe/TM toll-free) or (02) 8804-4673",
   "**In Touch Community Services**: (02) 8893-7603 or 0917-800-1123 (24/7 free crisis line)"]

/-- core/gemini_client.py PHILIPPINE_CRISIS_RESOURCES["regional_hotlines"]. -/
def philippine_regional_hotlines : List String :=
  ["**Tawag Paglaum - Centro Bisaya** (Cebu): 0939-937-5433 or 0927-654-1629",
   "**Quezon City Helpline**: 122 (for QC residents)"]

/-- core/gemini_client.py PHILIPPINE_CRISIS_RESOURCES["emergency"]. -/
def philippine_emergency : String := "**Emergency Services**: 911"

/-- The crisis_resources_text block assembled at the top of the
immediate_danger branch of generate_reply, built exactly as the source
accumulates it. -/
def crisis_resources_text : String :=
  let t1 := philippine_national_hotlines.foldl
    (fun acc h => acc ++ "• " ++ h ++ "\n")
    "**🆘 IMMEDIATE HELP - PHILIPPINES CRISIS HOTLINES:**\n\n"
  let t2 := t1 ++ "\n• " ++ philippine_emergency ++ "\n\n" ++ "**Regional Support:**\n"
  let t3 := philippine_regional_hotlines.foldl
    (fun acc h => acc ++ "• " ++ h ++ "\n") t2
  t3 ++ "\n**These are all FREE, confidential, and available 24/7.**"

/-- The fixed fallback message of the immediate_danger branch, used when the
generation call fails or yields empty text. -/
def crisis_fallback_msg : String :=
  "I'm really concerned about you right now. Your life has value, and there are people who want to help you through this.\n\n"
  ++ crisis_resources_text
  ++ "\n\nPlease reach out to one of these resources right now. You don't have to face this alone."

/-- Fixed fallback of the grief branch of generate_reply. -/
def grief_fallback_msg : String :=
  "I'm so sorry for your loss. The love you had is real and precious, and grief is the price we pay for that love. I'm here with you through this."

/-- Fixed fallback of the panic branch of generate_reply. -/
def panic_fallback_msg : String :=
  "You're not alone. I'm here with you. Breathe in slowly—1, 2, 3, 4. Hold—1, 2, 3, 4. Out—1, 2, 3, 4.\n\nYou're safe. This will pass."

/-- Fixed fallback of the high_distress branch of generate_reply. -/
def distress_fallback_msg : String :=
  "I hear you, and I'm here for you. What you're feeling is real and valid. I'm listening."

/-- The two random.choice fallbacks of the normal branch of generate_reply. -/
def normal_fallback_msgs : List String :=
  ["Hey, sorry if my reply's a bit off—my brain might be on autopilot! What's up with you today?",
   "Haha, sometimes I just space out. Want to share what's on your mind?"]

/-- core/gemini_client.py generate_reply.  tone only shapes the prompt text
fed to the generation oracle, so it does not influence this model's output;
gemAssess is the classification-call oracle passed to assess_response_type,
gemGen the reply-generation oracle (none when generate_content raises,
some r when safe_get_response_text extracts the stripped text r, which is
empty for blocked/empty responses and then raises into the fallback), and
pick selects between the two random.choice fallbacks of the normal branch. -/
def generate_reply (user_text : String) (emotions : List Emotion) (_tone : String)
    (gemAssess gemGen : Option String) (pick : Bool) : String :=
  let response_type := assess_response_type user_text emotions gemAssess
  if response_type = "immediate_danger" then
    match gemGen with
    | some r => if r ≠ "" then add_breaks r else add_breaks crisis_fallback_msg
    | none => add_breaks crisis_fallback_msg
  else if response_type = "grief" then
    match gemGen with
    | some r => if r ≠ "" then add_breaks r else add_breaks grief_fallback_msg
    | none => add_breaks grief_fallback_msg
  else if response_type = "panic" then
    match gemGen with
    | some r => if r ≠ "" then add_breaks r else add_breaks panic_fallback_msg
    | none => add_breaks panic_fallback_msg
  else if response_type = "high_distress" then
    match gemGen with
    | some r => if r ≠ "" then add_breaks r else add_breaks distress_fallback_msg
    | none => add_breaks distress_fallback_msg
  else
    match gemGen with
    | some r =>
      if r ≠ "" then add_breaks r
      else add_breaks (if pick then normal_fallback_msgs.headI else normal_fallback_msgs.getLastI)
    | none => add_breaks (if pick then normal_fallback_msgs.headI else normal_fallback_msgs.getLastI)

set_option maxRecDepth 4000 in
/-- C2: when the situation is immediate_danger and the reply-generation call
fails (raises) or returns empty text, generate_reply returns the fixed
fallback, which contains the configured Philippine crisis resource block
verbatim: the reply literally decomposes as a fixed head, then
crisis_resources_text, then a fixed tail, so the resource list is the
literal constant and never model output. -/
theorem c2_crisis_fallback_contains_resources (user_text : String)
    (emotions : List Emotion) (tone : String) (gemAssess gemGen : Option String)
    (pick : Bool)
    (hA : assess_response_type user_text emotions gemAssess = "immediate_danger")
    (hG : gemGen = none ∨ gemGen = some "") :
    generate_reply user_text emotions tone gemAssess gemGen pick
      = "I'm really concerned about you right now. Your life has value, and there are people who want to help you through this. "
        ++ crisis_resources_text
        ++ "\n\nPlease reach out to one of these resources right now. You don't have to face this alone." := by
  have hkey : add_breaks crisis_fallback_msg
      = "I'm really concerned about you right now. Your life has value, and there are people who want to help you through this. "
        ++ crisis_resources_text
        ++ "\n\nPlease reach out to one of these resources right now. You don't have to face this alone." := by
    decide
  rcases hG with h | h
  · subst h
    simp only [generate_reply, hA]
    rw [if_pos trivial]
    exact hkey
  · subst h
    simp only [generate_reply, hA]
    rw [if_pos trivial]
    rw [if_neg (fun hne => hne rfl)]
    exact hkey

set_option maxRecDepth 4000 in
/-- Witness for C2: the spec example "I'm going to kill myself tonight" with
a failed generation call yields the crisis fallback with the resource list
embedded verbatim. -/
theorem c2_crisis_fallback_contains_resources_witness :
    assess_response_type "I'm going to kill myself tonight" [] none = "immediate_danger" ∧
      generate_reply "I'm going to kill myself tonight" [] "empathetic" none none true
        = "I'm really concerned about you right now. Your life has value, and there are people who want to help you through this. "
          ++ crisis_resources_text
          ++ "\n\nPlease reach out to one of these resources right now. You don't have to face this alone." :=
  ⟨by decide,
   c2_crisis_fallback_contains_resources "I'm going to kill myself tonight" []
     "empathetic" none none true (by decide) (Or.inl rfl)⟩

/-! ## ai-service/app/main.py : sarcasm aggregation -/

/-- ai-service NEG_EVENTS lexicon, in source order (duplicates kept: the
alternation regex tries alternatives left to right). -/
def NEG_EVENTS : List String :=
  ["spilled", "spill", "lost", "cancelled", "canceled", "delayed", "delay",
   "crashed", "crash", "stopped", "jammed",
   "died", "forgot", "broken", "broke", "missed", "late", "ticket", "flat tire",
   "battery", "dead battery",
   "fired", "divorce", "hospital", "overworked", "burned out", "printer", "jam",
   "cancellation", "error",
   "crash", "issue", "problem", "ticket", "fine"]

/-- ai-service POS_EXAGG lexicon, in source order. -/
def POS_EXAGG : List String :=
  ["best day ever", "living the dream", "just what i needed", "absolutely perfect",
   "so amazing", "so wonderful", "thrilled beyond words", "truly blessed",
   "couldn't be happier", "couldnt be happier", "fantastic", "amazing", "wonderful",
   "awesome", "just great", "perfect", "lovely", "so glad", "could not be happier",
   "could not be better", "dream come true"]

/-- ai-service PROFANITY word set. -/
def PROFANITY : List String :=
  ["fucking", "damn", "shit", "crap", "hell", "pissed", "bitch", "asshole",
   "bullshit", "wtf"]

/-- Non-overlapping count of matches of a literal-alternation regex, scanning
left to right and preferring the first alternative at each position, as
re.findall does; fuel bounds the scan (one unit per consumed character, so
fuel = length of the text is exact). -/
def regexCountAux (pats : List (List Char)) : List Char → Nat → Nat
  | _, 0 => 0
  | [], _ => 0
  | c :: rest, Nat.succ fuel =>
    match pats.find? (fun p => !p.isEmpty && p.isPrefixOf (c :: rest)) with
    | some p => 1 + regexCountAux pats ((c :: rest).drop p.length) fuel
    | none => regexCountAux pats rest fuel

/-- ai-service count_negatives: number of NEG_REGEX matches in the text. -/
def count_negatives (s : String) : Nat :=
  regexCountAux (NEG_EVENTS.map String.data) s.data s.data.length

/-- POS_REGEX.search as a Boolean: some positive-hyperbole phrase occurs. -/
def pos_regex_search (s : String) : Bool :=
  POS_EXAGG.any fun p => strContains s p

/-- ai-service extra_positive_boost: 0.4 when a positive-hyperbole phrase
occurs in the lowercased text, else 0. -/
def extra_positive_boost (text : String) : ℚ :=
  if pos_regex_search (lowerString text) then 2/5 else 0

/-- The ELONGATED regex (.)\1{3,} : four or more repetitions of one
character ('.' does not match a newline). -/
def hasElongated : List Char → Bool
  | a :: b :: c :: d :: rest =>
    (decide (a ≠ '\n') && a = b && b = c && c = d) || hasElongated (b :: c :: d :: rest)
  | _ => false

/-- Positive emotion labels summed by the sarcasm aggregator. -/
def POS_EMOTION_LABELS : List String := ["joy", "love", "admiration", "excitement", "amusement"]

/-- Negative emotion labels summed by the sarcasm aggregator. -/
def NEG_EMOTION_LABELS : List String :=
  ["sadness", "disappointment", "annoyance", "anger", "grief", "fear"]

/-- Sum of the scores of the emotions whose label is in the allowlist. -/
def emotion_mass (labels : List String) (emotions : List Emotion) : ℚ :=
  (emotions.filter fun e => labels.contains e.label).foldl (fun acc e => acc + e.score) 0

/-- Default-configuration thresholds and weights of the sarcasm aggregator
(the corresponding environment variables unset). -/
def STRICT_SARCASM_THRESHOLD : ℚ := 50/100

/-- Default possible-sarcasm threshold. -/
def POSSIBLE_SARCASM_THRESHOLD : ℚ := 28/100

/-- Default weight SARCASM_WEIGHT_IRONY_FLOOR. -/
def WEIGHT_IRONY_FLOOR : ℚ := 5/100

/-- Default weight SARCASM_WEIGHT_T5. -/
def WEIGHT_T5 : ℚ := 6/10

/-- Default weight SARCASM_WEIGHT_CONTRADICTION. -/
def WEIGHT_CONTRADICTION : ℚ := 45/100

/-- Default weight SARCASM_WEIGHT_STYLE. -/
def WEIGHT_STYLE : ℚ := 35/100

/-- Default weight SARCASM_WEIGHT_POS_NEG_COMBO. -/
def WEIGHT_POS_NEG_COMBO : ℚ := 15/100

/-- Default weight SARCASM_WEIGHT_POS_BOOST. -/
def WEIGHT_POS_BOOST : ℚ := 18/100

/-- Default weight SARCASM_WEIGHT_ELONGATED. -/
def WEIGHT_ELONGATED : ℚ := 8/100

/-- Default weight SARCASM_WEIGHT_BORDERLINE. -/
def WEIGHT_BORDERLINE : ℚ := 3/100

/-- The additive base probability before the borderline-irony assist, one
summand per independently triggered signal exactly as the source
accumulates base_prob. -/
def sarcasm_base_pre (ironySarcastic : Bool) (ironyScore : ℚ) (t5Sarcastic : Bool)
    (contradiction style_trigger pos_neg_combo posBoostActive elongated : Bool) : ℚ :=
  (if ironySarcastic then
      ironyScore + (if ironyScore < 55/100 then WEIGHT_IRONY_FLOOR else 0)
    else 0)
  + (if t5Sarcastic then WEIGHT_T5 else 0)
  + (if contradiction then WEIGHT_CONTRADICTION else 0)
  + (if style_trigger then WEIGHT_STYLE else 0)
  + (if pos_neg_combo then WEIGHT_POS_NEG_COMBO else 0)
  + (if posBoostActive then WEIGHT_POS_BOOST else 0)
  + (if elongated then WEIGHT_ELONGATED else 0)

/-- base_prob with the borderline-irony assist: a small bump when the irony
model fired, at least one negative cue exists, and the provisional score is
just below the strict threshold. -/
def sarcasm_base_prob (ironySarcastic : Bool) (ironyScore : ℚ) (t5Sarcastic : Bool)
    (contradiction style_trigger pos_neg_combo posBoostActive elongated negPos : Bool) : ℚ :=
  let pre := sarcasm_base_pre ironySarcastic ironyScore t5Sarcastic contradiction
    style_trigger pos_neg_combo posBoostActive elongated
  if ironySarcastic && negPos && decide (pre < STRICT_SARCASM_THRESHOLD) &&
      decide (STRICT_SARCASM_THRESHOLD - pre ≤ 6/100) then
    pre + WEIGHT_BORDERLINE
  else pre

/-- Threshold evaluation of the final label from the score. -/
def sarcasm_label (score : ℚ) : String :=
  if score ≥ STRICT_SARCASM_THRESHOLD then "sarcastic"
  else if score ≥ POSSIBLE_SARCASM_THRESHOLD then "possibly_sarcastic"
  else "not_sarcastic"

/-- A sarcasm verdict: the discrete label plus the aggregated score.  The
sources audit trail and the feature dictionary that the source also returns
do not influence the label or the score and are not modelled. -/
structure SarcasmVerdict where
  label : String
  score : ℚ
deriving DecidableEq

/-- ai-service aggregate_sarcasm under the default configuration (no
logistic calibration coefficients, default weights and thresholds).  The
irony and T5 classifiers are external models, passed as oracle inputs:
ironySarcastic / ironyScore for the top irony label and its confidence,
t5Sarcastic for the T5 flag. -/
def aggregate_sarcasm (text : String) (emotions : List Emotion)
    (ironySarcastic : Bool) (ironyScore : ℚ) (t5Sarcastic : Bool) : SarcasmVerdict :=
  let lower := lowerString text
  let neg_count := count_negatives lower
  let pos_boost := extra_positive_boost text
  let elongated := hasElongated text.data
  let profanity_hit := PROFANITY.any fun w => strContains lower w
  let pos_emotion := emotion_mass POS_EMOTION_LABELS emotions + pos_boost
  let posRegexHit := pos_regex_search lower
  let contradiction :=
    (decide (pos_emotion ≥ 15/100) && decide (neg_count ≥ 1)) ||
    (decide (pos_emotion ≥ 10/100) && decide (neg_count ≥ 2))
  let style_trigger :=
    (elongated && decide (neg_count ≥ 1)) ||
    (profanity_hit && decide (neg_count ≥ 1)) ||
    (posRegexHit && decide (neg_count ≥ 1))
  let pos_neg_combo := posRegexHit && decide (neg_count ≥ 1) && !contradiction
  let posBoostActive := decide (pos_boost ≠ 0) && !contradiction && !pos_neg_combo
  let score := min 1 (sarcasm_base_prob ironySarcastic ironyScore t5Sarcastic
    contradiction style_trigger pos_neg_combo posBoostActive elongated
    (decide (neg_count ≥ 1)))
  ⟨sarcasm_label score, score⟩

/-- The base sum is nonnegative whenever the irony confidence is. -/
theorem sarcasm_base_pre_nonneg (iS : Bool) (iq : ℚ) (t5 c st pc pb el : Bool)
    (h : 0 ≤ iq) : 0 ≤ sarcasm_base_pre iS iq t5 c st pc pb el := by
  unfold sarcasm_base_pre
  have h1 : 0 ≤ (if iS then iq + (if iq < 55/100 then WEIGHT_IRONY_FLOOR else 0) else 0) := by
    split_ifs <;> simp [WEIGHT_IRONY_FLOOR] <;> linarith
  have h2 : 0 ≤ (if t5 then WEIGHT_T5 else 0) := by
    split_ifs <;> norm_num [WEIGHT_T5]
  have h3 : 0 ≤ (if c then WEIGHT_CONTRADICTION else 0) := by
    split_ifs <;> norm_num [WEIGHT_CONTRADICTION]
  have h4 : 0 ≤ (if st then WEIGHT_STYLE else 0) := by
    split_ifs <;> norm_num [WEIGHT_STYLE]
  have h5 : 0 ≤ (if pc then WEIGHT_POS_NEG_COMBO else 0) := by
    split_ifs <;> norm_num [WEIGHT_POS_NEG_COMBO]
  have h6 : 0 ≤ (if pb then WEIGHT_POS_BOOST else 0) := by
    split_ifs <;> norm_num [WEIGHT_POS_BOOST]
  have h7 : 0 ≤ (if el then WEIGHT_ELONGATED else 0) := by
    split_ifs <;> norm_num [WEIGHT_ELONGATED]
  linarith

/-- The borderline assist keeps the base probability nonnegative. -/
theorem sarcasm_base_prob_nonneg (iS : Bool) (iq : ℚ) (t5 c st pc pb el np : Bool)
    (h : 0 ≤ iq) : 0 ≤ sarcasm_base_prob iS iq t5 c st pc pb el np := by
  have hpre := sarcasm_base_pre_nonneg iS iq t5 c st pc pb el h
  simp only [sarcasm_base_prob]
  split_ifs with hcond
  · have : (0:ℚ) ≤ WEIGHT_BORDERLINE := by norm_num [WEIGHT_BORDERLINE]
    linarith
  · exact hpre

/-- The threshold evaluation gives each label exactly on its half-open
score band, for any score. -/
theorem sarcasm_label_spec (s : ℚ) :
    (sarcasm_label s = "sarcastic" ↔ STRICT_SARCASM_THRESHOLD ≤ s) ∧
      (sarcasm_label s = "possibly_sarcastic" ↔
        POSSIBLE_SARCASM_THRESHOLD ≤ s ∧ s < STRICT_SARCASM_THRESHOLD) := by
  unfold sarcasm_label
  split_ifs with h1 h2
  · exact ⟨⟨fun _ => h1, fun _ => rfl⟩,
      ⟨fun hEq => absurd hEq (by decide),
       fun hb => absurd h1 (not_le.mpr hb.2)⟩⟩
  · exact ⟨⟨fun hEq => absurd hEq (by decide), fun hge => absurd hge h1⟩,
      ⟨fun _ => ⟨h2, not_le.mp h1⟩, fun _ => rfl⟩⟩
  · exact ⟨⟨fun hEq => absurd hEq (by decide), fun hge => absurd hge h1⟩,
      ⟨fun hEq => absurd hEq (by decide), fun hb => absurd hb.1 h2⟩⟩

/-- C5: for every input text and emotion-score list (and any outcome of the
external irony and T5 classifiers with a nonnegative irony confidence), the
sarcasm aggregation returns a score in [0,1], the label is sarcastic exactly
when the score reaches the strict threshold, and possibly_sarcastic exactly
when the score lies in [possible_threshold, strict_threshold). -/
theorem c5_sarcasm_score_and_labels (text : String) (emotions : List Emotion)
    (ironySarcastic : Bool) (ironyScore : ℚ) (t5Sarcastic : Bool)
    (h : 0 ≤ ironyScore) :
    0 ≤ (aggregate_sarcasm text emotions ironySarcastic ironyScore t5Sarcastic).score ∧
    (aggregate_sarcasm text emotions ironySarcastic ironyScore t5Sarcastic).score ≤ 1 ∧
    ((aggregate_sarcasm text emotions ironySarcastic ironyScore t5Sarcastic).label = "sarcastic"
      ↔ STRICT_SARCASM_THRESHOLD ≤
          (aggregate_sarcasm text emotions ironySarcastic ironyScore t5Sarcastic).score) ∧
    ((aggregate_sarcasm text emotions ironySarcastic ironyScore t5Sarcastic).label = "possibly_sarcastic"
      ↔ POSSIBLE_SARCASM_THRESHOLD ≤
          (aggregate_sarcasm text emotions ironySarcastic ironyScore t5Sarcastic).score ∧
        (aggregate_sarcasm text emotions ironySarcastic ironyScore t5Sarcastic).score
          < STRICT_SARCASM_THRESHOLD) := by
  simp only [aggregate_sarcasm]
  refine ⟨le_min (by norm_num) (sarcasm_base_prob_nonneg _ _ _ _ _ _ _ _ _ h),
    min_le_left _ _, (sarcasm_label_spec _).1, (sarcasm_label_spec _).2⟩

/-- Witness for C5 at a concrete input (empty text, no emotions, irony
confidence 0). -/
theorem c5_sarcasm_score_and_labels_witness :
    (0 : ℚ) ≤ 0 ∧
      (0 ≤ (aggregate_sarcasm "" [] false 0 false).score ∧
       (aggregate_sarcasm "" [] false 0 false).score ≤ 1 ∧
       ((aggregate_sarcasm "" [] false 0 false).label = "sarcastic"
         ↔ STRICT_SARCASM_THRESHOLD ≤ (aggregate_sarcasm "" [] false 0 false).score) ∧
       ((aggregate_sarcasm "" [] false 0 false).label = "possibly_sarcastic"
         ↔ POSSIBLE_SARCASM_THRESHOLD ≤ (aggregate_sarcasm "" [] false 0 false).score ∧
           (aggregate_sarcasm "" [] false 0 false).score < STRICT_SARCASM_THRESHOLD)) :=
  ⟨le_refl 0, c5_sarcasm_score_and_labels "" [] false 0 false (le_refl 0)⟩

/-! ## core/gemini_client.py update_memory -/

/-- The bounded structured memory: stressor / motivation / trajectory are
optional strings (a missing key or a falsy value in the Python dict is
modelled by isUnsetField below), coping is the stored list. -/
structure StructuredMemory where
  stressor : Option String
  motivation : Option String
  coping : List String
  trajectory : Option String
deriving DecidableEq

/-- Python falsy test for an optional string field: missing or empty. -/
def isUnsetField : Option String → Bool
  | none => true
  | some s => s = ""

/-- Memory keyword set WORK_WORDS. -/
def WORK_WORDS : List String := ["work", "job", "boss", "shift", "overtime"]

/-- Memory keyword set SCHOOL_WORDS. -/
def SCHOOL_WORDS : List String := ["school", "study", "exam", "grade"]

/-- Memory keyword set FAMILY_WORDS. -/
def FAMILY_WORDS : List String := ["family", "parent", "sibling", "relationship"]

/-- Memory keyword set FAMILY_MOTIVATION. -/
def FAMILY_MOTIVATION : List String := ["family", "kids", "children"]

/-- Memory keyword set FEELING_OVERWHELMED. -/
def FEELING_OVERWHELMED : List String := ["exhausted", "drained", "overwhelmed"]

/-- Memory keyword set FEELING_BETTER. -/
def FEELING_BETTER : List String := ["better", "helping", "improving"]

/-- COPING_MAP, keyword to canonical coping activity, in source order. -/
def COPING_MAP : List (String × String) :=
  [("breathing", "breathing exercises"),
   ("bath", "taking baths"),
   ("music", "listening to music"),
   ("walk", "going for walks"),
   ("tea", "having tea"),
   ("read", "reading"),
   ("meditation", "meditation"),
   ("exercise", "exercise")]

/-- A regex word character, as matched by \w on this ASCII data. -/
def isWordChar (c : Char) : Bool :=
  ('a' ≤ c && c ≤ 'z') || ('A' ≤ c && c ≤ 'Z') || ('0' ≤ c && c ≤ '9') || c = '_'

/-- The key matches at the current position with a word boundary after it:
the key is a prefix and the next character (if any) is not a word
character.  All COPING_MAP keys start and end with letters, so the \b
boundaries reduce to the neighbour characters being non-word. -/
def matchesWordHere (key s : List Char) : Bool :=
  key.isPrefixOf s &&
    (match s.drop key.length with
     | [] => true
     | c :: _ => !isWordChar c)

/-- re.search of \b key \b : scan the text tracking whether the previous
character is a word character. -/
def wordSearchAux (key : List Char) (prevIsWord : Bool) : List Char → Bool
  | [] => false
  | c :: rest =>
    (!prevIsWord && matchesWordHere key (c :: rest)) ||
      wordSearchAux key (isWordChar c) rest

/-- Word-boundary search of a coping keyword in the text. -/
def wordSearch (key text : String) : Bool := wordSearchAux key.data false text.data

/-- Python l[-n:] : the last n elements (the whole list when shorter). -/
def takeLast (n : Nat) (l : List α) : List α := l.drop (l.length - n)

/-- The lowercased concatenation text_all of update_memory: texts of the
user turns among the last 8 history entries, then the latest user message,
joined by single spaces. -/
def memory_text_all (history : List Turn) (latest_user : String) : String :=
  let recent_texts := ((takeLast 8 history).filter
    (fun t => !(t.text = "") && t.role = "user")).map Turn.text
  lowerString (String.intercalate " " (recent_texts ++ [latest_user]))

/-- The insertion-ordered union of the existing coping set with the
newly-matched coping activities: set(existing coping) seeded in first-seen
order, then each COPING_MAP value whose key occurs (word-bounded) in
text_all. -/
def coping_union (existingCoping : List String) (text_all : String) : List String :=
  COPING_MAP.foldl
    (fun acc kv =>
      if wordSearch kv.1 text_all && !(acc.contains kv.2) then acc ++ [kv.2] else acc)
    existingCoping.dedup

/-- core/gemini_client.py update_memory.  The Python implementation stores
the coping values in a set and truncates with list(coping_set)[:8]; the
enumeration order of a Python string set is unspecified (hash-randomised),
so it is a parameter: enumSet lists the elements of the union (constrained
to a permutation in the theorems below) before the [:8] cut.  Heuristics
only write stressor / motivation / trajectory when the field is falsy. -/
def update_memory (enumSet : List String → List String)
    (existing : StructuredMemory) (history : List Turn)
    (latest_user _latest_bot : String) : StructuredMemory :=
  let text_all := memory_text_all history latest_user
  let stressor :=
    if isUnsetField existing.stressor then
      if WORK_WORDS.any (fun w => strContains text_all w) then some "work stress"
      else if SCHOOL_WORDS.any (fun w => strContains text_all w) then some "school stress"
      else if FAMILY_WORDS.any (fun w => strContains text_all w) then some "family stuff"
      else existing.stressor
    else existing.stressor
  let motivation :=
    if isUnsetField existing.motivation then
      if strContains text_all "tuition" &&
          (strContains text_all "sister" || strContains text_all "sibling") then
        some "helping family with school"
      else if FAMILY_MOTIVATION.any (fun w => strContains text_all w) then
        some "looking out for family"
      else existing.motivation
    else existing.motivation
  let coping := (enumSet (coping_union existing.coping text_all)).take 8
  let trajectory :=
    if isUnsetField existing.trajectory then
      if FEELING_OVERWHELMED.any (fun w => strContains text_all w) then
        some "feeling drained and overwhelmed"
      else if FEELING_BETTER.any (fun w => strContains text_all w) then
        some "starting to feel better"
      else existing.trajectory
    else existing.trajectory
  ⟨stressor, motivation, coping, trajectory⟩

/-- Accumulator growth of the coping union: anything already in the
accumulator stays in the fold result. -/
theorem mem_coping_foldl (l : List (String × String)) (t : String) :
    ∀ (acc : List String) (x : String), x ∈ acc →
      x ∈ l.foldl
        (fun acc kv =>
          if wordSearch kv.1 t && !(acc.contains kv.2) then acc ++ [kv.2] else acc)
        acc := by
  induction l with
  | nil => intro acc x hx; simpa using hx
  | cons kv l ih =>
    intro acc x hx
    simp only [List.foldl_cons]
    apply ih
    split_ifs with hkv
    · exact List.mem_append_left _ hx
    · exact hx

/-- Existing coping entries always land in the coping union. -/
theorem mem_coping_union (ec : List String) (t : String) (x : String)
    (hx : x ∈ ec) : x ∈ coping_union ec t :=
  mem_coping_foldl COPING_MAP t ec.dedup x (List.mem_dedup.mpr hx)

/-- C6 (amended): a heuristic memory update never changes an already-set
(truthy) stressor, motivation or trajectory, and it preserves every
existing coping entry provided the union of the existing entries with the
newly-matched coping activities stays within the 8-entry cap; beyond the
cap, the list(set)[:8] truncation over an unspecified set order can drop
existing entries (see the counterexample), so preservation holds exactly
under the cap condition.  enumSet ranges over all admissible enumerations
of the coping set, i.e. permutations. -/
theorem c6_heuristics_monotone (enumSet : List String → List String)
    (existing : StructuredMemory) (history : List Turn) (u b : String)
    (hperm : ∀ l, List.Perm (enumSet l) l) :
    (isUnsetField existing.stressor = false →
      (update_memory enumSet existing history u b).stressor = existing.stressor) ∧
    (isUnsetField existing.motivation = false →
      (update_memory enumSet existing history u b).motivation = existing.motivation) ∧
    (isUnsetField existing.trajectory = false →
      (update_memory enumSet existing history u b).trajectory = existing.trajectory) ∧
    ((coping_union existing.coping (memory_text_all history u)).length ≤ 8 →
      ∀ c ∈ existing.coping, c ∈ (update_memory enumSet existing history u b).coping) := by
  refine ⟨?_, ?_, ?_, ?_⟩
  · intro hset
    simp only [update_memory, hset, Bool.false_eq_true, if_false]
  · intro hset
    simp only [update_memory, hset, Bool.false_eq_true, if_false]
  · intro hset
    simp only [update_memory, hset, Bool.false_eq_true, if_false]
  · intro hcap c hc
    have hU : c ∈ coping_union existing.coping (memory_text_all history u) :=
      mem_coping_union _ _ _ hc
    have hlen : (enumSet (coping_union existing.coping (memory_text_all history u))).length ≤ 8 :=
      le_trans (le_of_eq ((hperm _).length_eq)) hcap
    have htake : (enumSet (coping_union existing.coping (memory_text_all history u))).take 8
        = enumSet (coping_union existing.coping (memory_text_all history u)) :=
      List.take_of_length_le hlen
    simp only [update_memory, htake]
    exact ((hperm _).mem_iff).mpr hU

/-- A structured memory whose coping set is already at the 8-entry cap. -/
def memC6 : StructuredMemory :=
  ⟨some "work stress", none, ["c1", "c2", "c3", "c4", "c5", "c6", "c7", "c8"], none⟩

/-- Counterexample for C6 as stated: with a full 8-entry coping set, a
message mentioning a new coping keyword ("breathing") pushes the union to 9
entries, and under the reverse enumeration of the set (an admissible
permutation) the truncation [:8] drops the existing entry "c1". -/
theorem c6_counterexample :
    "c1" ∈ memC6.coping ∧
      "c1" ∉ (update_memory List.reverse memC6 [] "breathing" "ok").coping := by
  decide

/-- A structured memory with every optional field set. -/
def memC6w : StructuredMemory :=
  ⟨some "work stress", some "looking out for family", ["walking"], some "starting to feel better"⟩

/-- Witness for the amended C6 at a concrete memory and update. -/
theorem c6_heuristics_monotone_witness :
    isUnsetField memC6w.stressor = false ∧
      (update_memory id memC6w [] "hello" "ok").stressor = memC6w.stressor :=
  ⟨by decide,
   (c6_heuristics_monotone id memC6w [] "hello" "ok"
     (fun l => List.Perm.refl l)).1 (by decide)⟩

/-- One update always leaves at most 8 coping entries: the source truncates
with [:8]. -/
theorem update_memory_coping_length_le (enumSet : List String → List String)
    (existing : StructuredMemory) (history : List Turn) (u b : String) :
    (update_memory enumSet existing history u b).coping.length ≤ 8 := by
  simp only [update_memory]
  exact List.length_take_le _ _

/-- One heuristic memory-update request: its set enumeration, the history
window and the latest exchange. -/
structure MemoryUpdateInput where
  enumSet : List String → List String
  history : List Turn
  latest_user : String
  latest_bot : String

/-- A finite sequence of update_memory applications. -/
def apply_memory_updates (mem : StructuredMemory) (inputs : List MemoryUpdateInput) :
    StructuredMemory :=
  inputs.foldl
    (fun m i => update_memory i.enumSet m i.history i.latest_user i.latest_bot) mem

/-- C7: starting from any memory whose coping collection is within the
8-entry cap, after any finite sequence of memory updates the coping
collection never exceeds the cap. -/
theorem c7_coping_cap (mem : StructuredMemory) (inputs : List MemoryUpdateInput)
    (h : mem.coping.length ≤ 8) :
    (apply_memory_updates mem inputs).coping.length ≤ 8 := by
  induction inputs generalizing mem with
  | nil => simpa [apply_memory_updates] using h
  | cons i is ih =>
    simp only [apply_memory_updates, List.foldl_cons] at ih ⊢
    exact ih _ (update_memory_coping_length_le _ _ _ _ _)

/-- Witness for C7 at a concrete in-cap memory and a concrete update list. -/
theorem c7_coping_cap_witness :
    (StructuredMemory.mk none none ["reading"] none).coping.length ≤ 8 ∧
      (apply_memory_updates ⟨none, none, ["reading"], none⟩
          [⟨id, [], "hi", "hello"⟩]).coping.length ≤ 8 :=
  ⟨by decide, c7_coping_cap ⟨none, none, ["reading"], none⟩
    [⟨id, [], "hi", "hello"⟩] (by decide)⟩

/-! ## core/views.py api_chat : consent-gated persistence -/

/-- The per-identity persistence state seen by api_chat: the consent flag,
the session-scoped ephemeral buffer (temp_chat_history), the durable
session messages, and the durable summary and structured memory. -/
structure SessionState where
  consent : Bool
  ephemeral : List Turn
  durable : List Turn
  summary : String
  memory : StructuredMemory
deriving DecidableEq

/-- The ephemeral-buffer update of the no-consent branch of api_chat:
append the user turn, trim to the last 10 entries when the buffer exceeds
10, then append the bot turn and store. -/
def ephemeral_step (history : List Turn) (userMsg reply : String) : List Turn :=
  let h1 := history ++ [Turn.mk "user" userMsg]
  let h2 := if decide (10 < h1.length) then takeLast 10 h1 else h1
  h2 ++ [Turn.mk "bot" reply]

/-- Number of stored user messages, as counted inside the persistence
transaction of api_chat. -/
def user_turn_count (msgs : List Turn) : Nat :=
  (msgs.filter fun m => m.role = "user").length

/-- The consent-given branch of api_chat: migrate a nonempty ephemeral
buffer into the durable session and clear it, fetch the last 12 messages as
context, persist the user and bot turns, regenerate the summary on the
cadence (count at most 6, or divisible by 3), and always evolve the
structured memory.  newSummary is the summary-generation oracle outcome and
enumSet the coping set enumeration passed down to update_memory. -/
def durable_step (enumSet : List String → List String) (newSummary : String)
    (st : SessionState) (userMsg reply : String) : SessionState :=
  let durable1 := if st.ephemeral.isEmpty then st.durable else st.durable ++ st.ephemeral
  let ephemeral1 : List Turn := if st.ephemeral.isEmpty then st.ephemeral else []
  let prior := takeLast 12 durable1
  let durable2 := durable1 ++ [Turn.mk "user" userMsg, Turn.mk "bot" reply]
  let n := user_turn_count durable2
  let summary1 := if n ≤ 6 ∨ n % 3 = 0 then newSummary else st.summary
  let memory1 := update_memory enumSet st.memory
    (prior ++ [Turn.mk "user" userMsg, Turn.mk "bot" reply]) userMsg reply
  ⟨st.consent, ephemeral1, durable2, summary1, memory1⟩

/-- One api_chat request processing a message: the no-consent branch only
touches the ephemeral buffer, the consent branch runs the durable step. -/
def api_chat_step (enumSet : List String → List String) (newSummary : String)
    (st : SessionState) (userMsg reply : String) : SessionState :=
  if st.consent = false then
    { st with ephemeral := ephemeral_step st.ephemeral userMsg reply }
  else durable_step enumSet newSummary st userMsg reply

/-- core/views.py api_consent: set the consent flag; revoking consent
(true to false) also clears the ephemeral buffer. -/
def api_consent_step (st : SessionState) (newConsent : Bool) : SessionState :=
  let st1 := { st with consent := newConsent }
  if st.consent && !newConsent then { st1 with ephemeral := [] } else st1

/-- The ephemeral buffer after five no-consent messages: ten turns, the cap. -/
def full_ephemeral_buffer : List Turn :=
  [Turn.mk "user" "m1", Turn.mk "bot" "r1", Turn.mk "user" "m2", Turn.mk "bot" "r2",
   Turn.mk "user" "m3", Turn.mk "bot" "r3", Turn.mk "user" "m4", Turn.mk "bot" "r4",
   Turn.mk "user" "m5", Turn.mk "bot" "r5"]

/-- C3 fails on the code: the cap-10 trim runs after appending the user
turn but before appending the bot turn, so from the reachable 10-turn
buffer (built here by five messages from empty) one more message leaves 11
turns in the stored buffer, exceeding the documented cap of 10. -/
theorem c3_ephemeral_buffer_overflows :
    ephemeral_step (ephemeral_step (ephemeral_step (ephemeral_step
        (ephemeral_step [] "m1" "r1") "m2" "r2") "m3" "r3") "m4" "r4") "m5" "r5"
      = full_ephemeral_buffer ∧
    (ephemeral_step full_ephemeral_buffer "m6" "r6").length = 11 := by
  decide

set_option linter.unusedVariables false in
/-- C4: on a consent false-to-true transition, the next processed message
migrates the ephemeral turns into the durable session exactly once, in
their original order and in the same atomic step, the ephemeral buffer is
empty immediately afterwards, and a subsequent message appends only its own
two turns (no further merge). -/
theorem c4_consent_migration (st : SessionState) (h : st.consent = false)
    (e e2 : List String → List String) (ns ns2 u b u2 b2 : String) :
    (api_chat_step e ns (api_consent_step st true) u b).durable
        = st.durable ++ st.ephemeral ++ [Turn.mk "user" u, Turn.mk "bot" b] ∧
    (api_chat_step e ns (api_consent_step st true) u b).ephemeral = [] ∧
    (api_chat_step e2 ns2 (api_chat_step e ns (api_consent_step st true) u b) u2 b2).durable
        = (api_chat_step e ns (api_consent_step st true) u b).durable
            ++ [Turn.mk "user" u2, Turn.mk "bot" b2] := by
  by_cases he : st.ephemeral = [] <;>
    simp [api_consent_step, api_chat_step, durable_step, he]

/-- A no-consent state with three buffered ephemeral turns, as in the spec
example. -/
def c4ExState : SessionState :=
  ⟨false, [Turn.mk "user" "a", Turn.mk "bot" "b", Turn.mk "user" "c"], [], "",
   ⟨none, none, [], none⟩⟩

/-- Witness for C4: granting consent over three buffered turns then sending
two messages migrates exactly those turns once, in order. -/
theorem c4_consent_migration_witness :
    c4ExState.consent = false ∧
      ((api_chat_step id "s" (api_consent_step c4ExState true) "u4" "r4").durable
          = c4ExState.durable ++ c4ExState.ephemeral
              ++ [Turn.mk "user" "u4", Turn.mk "bot" "r4"] ∧
       (api_chat_step id "s" (api_consent_step c4ExState true) "u4" "r4").ephemeral = [] ∧
       (api_chat_step id "s2" (api_chat_step id "s" (api_consent_step c4ExState true)
            "u4" "r4") "u5" "r5").durable
          = (api_chat_step id "s" (api_consent_step c4ExState true) "u4" "r4").durable
              ++ [Turn.mk "user" "u5", Turn.mk "bot" "r5"]) :=
  ⟨rfl, c4_consent_migration c4ExState rfl id id "s" "s2" "u4" "r4" "u5" "r5"⟩

/-- C8: with consent given, the summary is regenerated exactly on the
configured cadence: it becomes the freshly generated summary when the
stored user-turn count (including the current message) is at most 6 or a
multiple of 3, and is left unchanged on every other turn. -/
theorem c8_summary_cadence (e : List String → List String) (ns : String)
    (st : SessionState) (u b : String) (h : st.consent = true) :
    ((user_turn_count (api_chat_step e ns st u b).durable ≤ 6 ∨
        user_turn_count (api_chat_step e ns st u b).durable % 3 = 0) →
      (api_chat_step e ns st u b).summary = ns) ∧
    (¬(user_turn_count (api_chat_step e ns st u b).durable ≤ 6 ∨
        user_turn_count (api_chat_step e ns st u b).durable % 3 = 0) →
      (api_chat_step e ns st u b).summary = st.summary) := by
  simp only [api_chat_step, h, Bool.true_eq_false, if_false, durable_step]
  constructor <;> intro hc
  · exact if_pos hc
  · exact if_neg hc

/-- A consent-given state with an empty durable session. -/
def c8ExState : SessionState := ⟨true, [], [], "old summary", ⟨none, none, [], none⟩⟩

/-- Witness for C8: the first stored message (user-turn count 1, at most 6)
regenerates the summary. -/
theorem c8_summary_cadence_witness :
    c8ExState.consent = true ∧
      (user_turn_count (api_chat_step id "new summary" c8ExState "hi" "yo").durable ≤ 6 ∨
        user_turn_count (api_chat_step id "new summary" c8ExState "hi" "yo").durable % 3 = 0) ∧
      (api_chat_step id "new summary" c8ExState "hi" "yo").summary = "new summary" :=
  ⟨rfl, by decide,
   (c8_summary_cadence id "new summary" c8ExState "hi" "yo" rfl).1 (by decide)⟩
